import Mathlib

/-!
Shallow embedding of the NeuroVis backend core
(`backend/schemas.py`, `backend/parser.py`, `backend/validate.py`,
`backend/ai_pipeline.py`, `backend/main.py`).

Python strings are Lean `String`s; Python dicts that preserve insertion
order are association lists; Python's stable `sorted` is `List.mergeSort`
(stable); float thresholds are modelled exactly over `ℚ` (the clinical
rule engine only compares values, it performs no float arithmetic).
-/

namespace NeuroVis

/-- Embeds `schemas.MRISequenceType`: standard MRI sequence types. -/
inductive MRISequenceType
  | T1
  | T1C
  | T2
  | FLAIR
deriving DecidableEq, BEq, Repr

/-- The string `.value` of each enum member, as in `schemas.py`. -/
def MRISequenceType.value : MRISequenceType → String
  | .T1 => "T1"
  | .T1C => "T1c"
  | .T2 => "T2"
  | .FLAIR => "FLAIR"

/-- Embeds `schemas.DicomSeries`. -/
structure DicomSeries where
  series_uid : String
  series_description : String
  modality : String
  sequence_type : Option MRISequenceType
  file_paths : List String := []
  num_slices : Nat := 0
deriving DecidableEq, Repr

/-- Embeds `schemas.DicomStudy`. -/
structure DicomStudy where
  study_uid : String
  patient_id : String := "ANONYMOUS"
  study_date : Option String := none
  study_description : Option String := none
  series : List DicomSeries := []
deriving DecidableEq, Repr

/-- Embeds `DicomStudy.get_series_by_type`: first series whose sequence type
matches (the Python `==` against both the enum and its raw string value
collapses to one equality in the typed model). -/
def DicomStudy.get_series_by_type (study : DicomStudy) (seq_type : MRISequenceType) :
    Option DicomSeries :=
  study.series.find? (fun s => s.sequence_type == some seq_type)

/-- Embeds `schemas.ValidationResult` (the base64 preview image is presentation
data and is omitted). -/
structure ValidationResult where
  is_valid : Bool
  errors : List String := []
  warnings : List String := []
  required_sequences : List (String × Bool) := []
deriving DecidableEq, Repr

/-! ## parser.py -/

/-- The relevant header fields of a pydicom dataset; `none` models an
absent attribute (`getattr` default applies). -/
structure DicomDataset where
  SeriesInstanceUID : Option String := none
  StudyInstanceUID : Option String := none
  Modality : Option String := none
  SeriesDescription : Option String := none
  PatientID : Option String := none
  StudyDate : Option String := none
  StudyDescription : Option String := none
  InstanceNumber : Option Int := none
deriving DecidableEq, Repr

/-- An input file: `read_dicom_file` either yields a dataset or fails
(`none`), in which case `group_series` skips the file. -/
structure DicomFile where
  filepath : String
  dataset : Option DicomDataset
deriving DecidableEq, Repr

/-- One record of `extract_series_metadata`. -/
structure FileMetadata where
  filepath : String
  series_uid : String
  study_uid : String
  modality : String
  series_description : String
  patient_id : String
  study_date : Option String
  study_description : String
  instance_number : Int
deriving DecidableEq, Repr

/-- Python `str.lower`, character-wise. -/
def strLower (s : String) : String :=
  String.mk (s.data.map Char.toLower)

/-- Python `str.strip` (trim surrounding whitespace). -/
def strStrip (s : String) : String :=
  s.trim

/-- Helper for Python's substring test `needle in haystack`. -/
def containsAux (n : List Char) : List Char → Bool
  | [] => n.isEmpty
  | c :: t => n.isPrefixOf (c :: t) || containsAux n t

/-- Python `needle in haystack` on strings. -/
def strIn (needle haystack : String) : Bool :=
  containsAux needle.data haystack.data

/-- Embeds `DicomParser.SEQUENCE_KEYWORDS`, keyword set of each sequence type. -/
def seqKeywords : MRISequenceType → List String
  | .T1 => ["t1", "t1w", "t1_weighted", "t1-weighted"]
  | .T1C => ["t1c", "t1ce", "t1+c", "t1_post", "t1_gad", "contrast", "post_contrast"]
  | .T2 => ["t2", "t2w", "t2_weighted", "t2-weighted"]
  | .FLAIR => ["flair", "fl air", "t2_flair"]

/-- Embeds `DicomParser.SEQUENCE_KEYWORDS` in its Python dict insertion order. -/
def SEQUENCE_KEYWORDS : List (MRISequenceType × List String) :=
  [MRISequenceType.T1, MRISequenceType.T1C, MRISequenceType.T2, MRISequenceType.FLAIR].map
    (fun t => (t, seqKeywords t))

/-- The keyword-table loop of `detect_sequence_type`: at the first entry
with a matching keyword, return that type, except that a T1 match is
re-checked against the T1C keyword set first. -/
def detectAux (desc_lower : String) : List (MRISequenceType × List String) →
    Option MRISequenceType
  | [] => none
  | (seq_type, keywords) :: rest =>
    if keywords.any (fun kw => strIn kw desc_lower) then
      if seq_type = MRISequenceType.T1 then
        if (seqKeywords MRISequenceType.T1C).any (fun kw => strIn kw desc_lower) then
          some MRISequenceType.T1C
        else
          some seq_type
      else
        some seq_type
    else
      detectAux desc_lower rest

/-- Embeds `DicomParser.detect_sequence_type`. -/
def detect_sequence_type (series_description : String) : Option MRISequenceType :=
  detectAux (strLower series_description) SEQUENCE_KEYWORDS

/-- Embeds `DicomParser.extract_series_metadata`: `getattr` defaults as in the
source (`InstanceNumber` defaults to `0` when absent). -/
def extract_series_metadata (dcm : DicomDataset) (filepath : String) : FileMetadata :=
  { filepath := filepath
    series_uid := dcm.SeriesInstanceUID.getD "UNKNOWN"
    study_uid := dcm.StudyInstanceUID.getD "UNKNOWN"
    modality := dcm.Modality.getD "UNKNOWN"
    series_description := strStrip (dcm.SeriesDescription.getD "")
    patient_id := dcm.PatientID.getD "ANONYMOUS"
    study_date := dcm.StudyDate
    study_description := strStrip (dcm.StudyDescription.getD "")
    instance_number := dcm.InstanceNumber.getD 0 }

/-- Comparison used to sort a series' files: ascending by
`instance_number` (Python `sorted` key). -/
def fileLe (a b : FileMetadata) : Bool :=
  decide (a.instance_number ≤ b.instance_number)

/-- Python's stable `sorted(series_metadata_list, key=instance_number)`,
modelled by the (stable) `List.mergeSort`. -/
def sortFilesByInstance (l : List FileMetadata) : List FileMetadata :=
  l.mergeSort fileLe

/-- Embeds `DicomParser.build_dicom_series`. The Python indexes
`series_metadata_list[0]`; `group_series` only ever produces non-empty
groups, so the `headD` default is unreachable from `parse_study`. -/
def build_dicom_series (series_metadata_list : List FileMetadata) : DicomSeries :=
  let first := series_metadata_list.headD
    { filepath := "", series_uid := "UNKNOWN", study_uid := "UNKNOWN",
      modality := "UNKNOWN", series_description := "", patient_id := "ANONYMOUS",
      study_date := none, study_description := "", instance_number := 0 }
  let sorted_files := sortFilesByInstance series_metadata_list
  { series_uid := first.series_uid
    series_description := first.series_description
    modality := first.modality
    sequence_type := detect_sequence_type first.series_description
    file_paths := sorted_files.map (fun m => m.filepath)
    num_slices := sorted_files.length }

/-- Append a metadata record to its series group (Python `defaultdict`:
insertion order of keys is preserved, records are appended in order). -/
def insertGroup (groups : List (String × List FileMetadata)) (uid : String)
    (m : FileMetadata) : List (String × List FileMetadata) :=
  match groups with
  | [] => [(uid, [m])]
  | (u, ms) :: rest =>
    if u = uid then (u, ms ++ [m]) :: rest else (u, ms) :: insertGroup rest uid m

/-- The body of the `group_series` loop: skip an unreadable file,
otherwise extract metadata and append it to its series group. -/
def groupStep (groups : List (String × List FileMetadata)) (f : DicomFile) :
    List (String × List FileMetadata) :=
  match f.dataset with
  | none => groups
  | some dcm =>
    let metadata := extract_series_metadata dcm f.filepath
    insertGroup groups metadata.series_uid metadata

/-- Embeds `DicomParser.group_series`: group readable files by SeriesInstanceUID,
skipping files whose read failed. -/
def group_series (file_paths : List DicomFile) : List (String × List FileMetadata) :=
  file_paths.foldl groupStep []

/-- The study-level info loop of `parse_study`: the first group found
while `study_uid` is still `"UNKNOWN"` supplies uid, patient, date and
description. -/
def studyInfoLoop (groups : List (String × List FileMetadata)) :
    String × String × Option String × String :=
  groups.foldl
    (fun info g =>
      if info.1 = "UNKNOWN" then
        match g.2 with
        | [] => info
        | m :: _ => (m.study_uid, m.patient_id, m.study_date, m.study_description)
      else info)
    ("UNKNOWN", "ANONYMOUS", none, "")

/-- Embeds `DicomParser.parse_study`: empty input yields the `"EMPTY"` sentinel
study; otherwise groups are built into series and study-level metadata is
taken from the first group. -/
def parse_study (file_paths : List DicomFile) : DicomStudy :=
  if file_paths.isEmpty then
    { study_uid := "EMPTY", series := [] }
  else
    let groups := group_series file_paths
    let series_list := groups.map (fun g => build_dicom_series g.2)
    let info := studyInfoLoop groups
    { study_uid := info.1
      patient_id := info.2.1
      study_date := info.2.2.1
      study_description := some info.2.2.2
      series := series_list }

/-! ## validate.py -/

/-- Embeds `MedicalValidator.REQUIRED_SEQUENCES`. -/
def REQUIRED_SEQUENCES : List MRISequenceType :=
  [MRISequenceType.T1, MRISequenceType.T2, MRISequenceType.FLAIR]

/-- Embeds `MedicalValidator.MIN_SLICES_PER_SEQUENCE`. -/
def MIN_SLICES_PER_SEQUENCE : Nat := 1

/-- The error text of `validate_modality` for one offending series. -/
def modalityError (s : DicomSeries) : String :=
  "Series \x27" ++ s.series_description ++ "\x27 has invalid modality \x27" ++
    s.modality ++ "\x27. Expected \x27MR\x27 for MRI. This system only accepts MRI studies."

/-- Embeds `MedicalValidator.validate_modality`: `(is_valid, errors)`. -/
def validate_modality (study : DicomStudy) : Bool × List String :=
  if study.series.isEmpty then
    (false, ["Study contains no series"])
  else
    let errors := study.series.filterMap
      (fun s => if s.modality ≠ "MR" then some (modalityError s) else none)
    (errors.isEmpty, errors)

/-- The error text of `validate_required_sequences` for one missing
required type. -/
def missingSeqError (t : MRISequenceType) : String :=
  "Missing required sequence: " ++ t.value ++
    ". Brain tumor analysis requires T1, T2, and FLAIR sequences."

/-- The loop of `validate_required_sequences`: accumulates the error list
and the `sequence_status` dict (insertion order) over the required
types. -/
def reqSeqLoop (study : DicomStudy) : List MRISequenceType →
    List String × List (String × Bool)
  | [] => ([], [])
  | required_seq :: rest =>
    let is_present := (study.get_series_by_type required_seq).isSome
    let tail := reqSeqLoop study rest
    ((if is_present then tail.1 else missingSeqError required_seq :: tail.1),
     (required_seq.value, is_present) :: tail.2)

/-- Embeds `MedicalValidator.validate_required_sequences`:
`(is_valid, errors, sequence_status)`. -/
def validate_required_sequences (study : DicomStudy) :
    Bool × List String × List (String × Bool) :=
  let r := reqSeqLoop study REQUIRED_SEQUENCES
  (r.1.isEmpty, r.1, r.2)

/-- The error text of `validate_slice_counts` for a required sequence
with too few slices. -/
def sliceError (t : MRISequenceType) (n : Nat) : String :=
  "Sequence " ++ t.value ++ " has only " ++ toString n ++ " slices. Minimum " ++
    toString MIN_SLICES_PER_SEQUENCE ++ " slices required for reliable analysis."

/-- The warning text of `validate_slice_counts` for a required sequence
with fewer than 5 slices. -/
def sliceWarning (t : MRISequenceType) (n : Nat) : String :=
  "Sequence " ++ t.value ++ " has only " ++ toString n ++
    " slices. More slices (20+) recommended for optimal analysis quality."

/-- The per-series body of the `validate_slice_counts` loop:
`(errors, warnings)` contributed by one series. Series without a
detected sequence type are skipped; the Python enum/raw-string double
membership test collapses to one membership in the typed model. -/
def sliceCheckSeries (s : DicomSeries) : List String × List String :=
  match s.sequence_type with
  | none => ([], [])
  | some t =>
    if REQUIRED_SEQUENCES.contains t then
      if s.num_slices < MIN_SLICES_PER_SEQUENCE then
        ([sliceError t s.num_slices], [])
      else if s.num_slices < 5 then
        ([], [sliceWarning t s.num_slices])
      else
        ([], [])
    else
      ([], [])

/-- Embeds `MedicalValidator.validate_slice_counts`:
`(is_valid, errors, warnings)`. -/
def validate_slice_counts (study : DicomStudy) : Bool × List String × List String :=
  let errors := (study.series.map (fun s => (sliceCheckSeries s).1)).flatten
  let warnings := (study.series.map (fun s => (sliceCheckSeries s).2)).flatten
  (errors.isEmpty, errors, warnings)

/-- Embeds `MedicalValidator.validate_study`: the gatekeeper. -/
def validate_study (study : DicomStudy) : ValidationResult :=
  let modality := validate_modality study
  let sequences := validate_required_sequences study
  let slices := validate_slice_counts study
  { is_valid := modality.1 && sequences.1 && slices.1
    errors := modality.2 ++ sequences.2.1 ++ slices.2.1
    warnings := slices.2.2
    required_sequences := sequences.2.2 }

/-! ## ai_pipeline.py: ClinicalFlaggingPipeline -/

/-- Embeds `schemas.TumorSegmentation` (numeric fields only; the base64 images
are presentation data). Floats are modelled over `ℚ`. -/
structure TumorSegmentation where
  whole_tumor_volume_ml : ℚ
  enhancing_tumor_volume_ml : ℚ
  necrotic_core_volume_ml : ℚ
  confidence_score : ℚ
deriving DecidableEq, Repr

/-- Embeds `schemas.GenotypeIPrediction`. -/
structure GenotypeIPrediction where
  idh_mutation_probability : ℚ
  idh_wildtype_probability : ℚ
  mgmt_methylation_probability : ℚ
  egfr_amplification_probability : ℚ
  prediction_confidence : ℚ
deriving DecidableEq, Repr

/-- Embeds `schemas.ClinicalFlags`. -/
structure ClinicalFlags where
  high_risk : Bool := false
  requires_urgent_review : Bool := false
  risk_factors : List String := []
  urgency_reason : Option String := none
deriving DecidableEq, Repr

/-- Embeds `ClinicalFlaggingPipeline.run`, with the source's sequential
mutations rendered as rebindings in the source's order. -/
def clinicalFlaggingRun (segmentation : Option TumorSegmentation)
    (genotype : Option GenotypeIPrediction) : ClinicalFlags :=
  let risk_factors : List String := []
  let high_risk := false
  let requires_urgent_review := false
  let urgency_reason : Option String := none
  let afterSeg :=
    match segmentation with
    | none => (risk_factors, high_risk, requires_urgent_review, urgency_reason)
    | some s =>
      let st1 :=
        if s.whole_tumor_volume_ml > 50 then
          (risk_factors ++ ["Large tumor volume (>50 mL)"], true)
        else (risk_factors, high_risk)
      let st2 :=
        if s.enhancing_tumor_volume_ml > 20 then
          (st1.1 ++ ["Significant tumor enhancement"], true)
        else st1
      let st3 :=
        if s.necrotic_core_volume_ml > 10 then
          (st2.1 ++ ["Large necrotic core"], true,
            some "Large necrotic core may indicate high-grade glioma")
        else (st2.1, requires_urgent_review, urgency_reason)
      (st3.1, st2.2, st3.2.1, st3.2.2)
  let afterGen :=
    match genotype with
    | none => (afterSeg.1, afterSeg.2.1)
    | some g =>
      let gt1 :=
        if g.idh_wildtype_probability > 0.7 then
          (afterSeg.1 ++ ["IDH-wildtype (worse prognosis)"], true)
        else (afterSeg.1, afterSeg.2.1)
      let gt2 :=
        if g.egfr_amplification_probability > 0.6 then
          (gt1.1 ++ ["EGFR amplification likely"], true)
        else gt1
      gt2
  { high_risk := afterGen.2
    requires_urgent_review := afterSeg.2.2.1
    risk_factors := afterGen.1
    urgency_reason := afterSeg.2.2.2 }

/-! ## main.py: run_inference -/

/-- Embeds `schemas.AnalysisResult` (wall-clock fields `timestamp` and
`processing_time_seconds` are outside the embedding; the explainability
payload is free text and is omitted). -/
structure AnalysisResult where
  study_id : String
  validation : ValidationResult
  segmentation : Option TumorSegmentation := none
  genotype_prediction : Option GenotypeIPrediction := none
  clinical_flags : Option ClinicalFlags := none
deriving DecidableEq, Repr

/-- Embeds one `studies_db` entry of `main.py`. -/
structure StudyRecord where
  study : DicomStudy
  validation : ValidationResult
  result : Option AnalysisResult := none
deriving DecidableEq, Repr

/-- Embeds `schemas.InferenceRequest`. -/
structure InferenceRequest where
  study_id : String
  run_segmentation : Bool := true
  run_genotype_prediction : Bool := true
  generate_explanations : Bool := true
  bypass_validation : Bool := false
deriving DecidableEq, Repr

/-- The observable outcome of `run_inference`: a 404 for an unknown
study, the 422 validation gate carrying the stored validation errors and
required-sequence status, or a completed analysis. -/
inductive InferenceOutcome
  | notFound
  | validationBlocked (errors : List String) (required_sequences : List (String × Bool))
  | completed (result : AnalysisResult)
deriving DecidableEq, Repr

/-- The external segmentation/genotype model calls invoked by
`run_inference` (mocked with randomness in `ai_pipeline.py`, hence kept
abstract here). -/
structure Pipelines where
  segmentation : DicomStudy → TumorSegmentation
  genotype : DicomStudy → GenotypeIPrediction

/-- The in-memory `studies_db`, an insertion-ordered dict. -/
def StudiesDb := List (String × StudyRecord)

/-- Embeds the lookup `studies_db[request.study_id]`. -/
def dbLookup (db : StudiesDb) (study_id : String) : Option StudyRecord :=
  match db with
  | [] => none
  | (k, v) :: rest => if k = study_id then some v else dbLookup rest study_id

/-- Embeds the update `studies_db[study_id]["result"] = result`. -/
def dbSetResult (db : StudiesDb) (study_id : String) (result : AnalysisResult) :
    StudiesDb :=
  match db with
  | [] => []
  | (k, v) :: rest =>
    if k = study_id then (k, { v with result := some result }) :: rest
    else (k, v) :: dbSetResult rest study_id result

/-- Embeds `main.run_inference`: returns the outcome and the resulting
`studies_db`. Raising an HTTPException leaves the db untouched. -/
def run_inference (p : Pipelines) (db : StudiesDb) (request : InferenceRequest) :
    InferenceOutcome × StudiesDb :=
  match dbLookup db request.study_id with
  | none => (.notFound, db)
  | some study_data =>
    let validation := study_data.validation
    if !validation.is_valid && !request.bypass_validation then
      (.validationBlocked validation.errors validation.required_sequences, db)
    else
      let segmentation :=
        if request.run_segmentation then some (p.segmentation study_data.study) else none
      let genotype :=
        if request.run_genotype_prediction then some (p.genotype study_data.study) else none
      let clinical_flags := clinicalFlaggingRun segmentation genotype
      let result : AnalysisResult :=
        { study_id := request.study_id
          validation := validation
          segmentation := segmentation
          genotype_prediction := genotype
          clinical_flags := some clinical_flags }
      (.completed result, dbSetResult db request.study_id result)

/-! ## Theorems -/

/-- Helper: `validate_modality`'s validity flag equals emptiness of its
error list in both branches. -/
theorem validate_modality_fst_eq (study : DicomStudy) :
    (validate_modality study).1 = (validate_modality study).2.isEmpty := by
  unfold validate_modality
  split <;> rfl

/-- C3: `validate_study` returns `is_valid` equal to the conjunction of
the modality, required-sequence and slice-count checks; warnings are
exactly the slice-count warnings (no warning feeds `is_valid`); the
errors list is non-empty iff `is_valid` is false. -/
theorem validate_study_conjunction (study : DicomStudy) :
    (validate_study study).is_valid =
      ((validate_modality study).1 && (validate_required_sequences study).1 &&
        (validate_slice_counts study).1) ∧
    (validate_study study).warnings = (validate_slice_counts study).2.2 ∧
    ((validate_study study).errors ≠ [] ↔ (validate_study study).is_valid = false) := by
  refine ⟨rfl, rfl, ?_⟩
  have h : ∀ (a b c : List String), a ++ b ++ c ≠ [] ↔
      (a.isEmpty && b.isEmpty && c.isEmpty) = false := by
    intro a b c
    cases a <;> cases b <;> cases c <;> simp
  have hm := validate_modality_fst_eq study
  show (validate_modality study).2 ++ (validate_required_sequences study).2.1 ++
      (validate_slice_counts study).2.1 ≠ [] ↔
    ((validate_modality study).1 && (validate_required_sequences study).1 &&
      (validate_slice_counts study).1) = false
  rw [hm]
  exact h _ _ _

/-- C4: on a series classified to a required type, the slice-count check
gives a hard error for 0 slices, only a warning for 1..4 slices, and
nothing for 5 or more; series with no detected sequence type are skipped
entirely. -/
theorem slice_check_boundaries (s : DicomSeries) :
    (s.sequence_type = none → sliceCheckSeries s = ([], [])) ∧
    (∀ t : MRISequenceType, s.sequence_type = some t →
      REQUIRED_SEQUENCES.contains t = true →
      ((s.num_slices = 0 → sliceCheckSeries s = ([sliceError t 0], [])) ∧
       (1 ≤ s.num_slices → s.num_slices ≤ 4 →
          sliceCheckSeries s = ([], [sliceWarning t s.num_slices])) ∧
       (5 ≤ s.num_slices → sliceCheckSeries s = ([], [])))) := by
  constructor
  · intro h
    simp [sliceCheckSeries, h]
  · intro t ht hreq
    refine ⟨?_, ?_, ?_⟩
    · intro h0
      simp [sliceCheckSeries, ht, hreq, MIN_SLICES_PER_SEQUENCE, h0]
    · intro h1 h4
      have hlt : ¬ s.num_slices < MIN_SLICES_PER_SEQUENCE := by
        simp [MIN_SLICES_PER_SEQUENCE]; omega
      have hlt5 : s.num_slices < 5 := by omega
      simp [sliceCheckSeries, ht, hreq, hlt, hlt5]
    · intro h5
      have hlt : ¬ s.num_slices < MIN_SLICES_PER_SEQUENCE := by
        simp [MIN_SLICES_PER_SEQUENCE]; omega
      have hlt5 : ¬ s.num_slices < 5 := by omega
      simp [sliceCheckSeries, ht, hreq, hlt, hlt5]

/-- Witness for C4: a FLAIR series with 0 slices produces exactly the
hard error, via `slice_check_boundaries`. -/
theorem slice_check_boundaries_witness :
    sliceCheckSeries
        { series_uid := "S", series_description := "flair", modality := "MR",
          sequence_type := some MRISequenceType.FLAIR, file_paths := [],
          num_slices := 0 } =
      ([sliceError MRISequenceType.FLAIR 0], []) :=
  ((slice_check_boundaries _).2 MRISequenceType.FLAIR rfl (by decide)).1 rfl

/-- C5: any description matching both a generic T1 keyword and a
T1-contrast keyword classifies as T1C, never T1. -/
theorem t1_contrast_precedence (desc : String)
    (h1 : (seqKeywords MRISequenceType.T1).any
        (fun kw => strIn kw (strLower desc)) = true)
    (h2 : (seqKeywords MRISequenceType.T1C).any
        (fun kw => strIn kw (strLower desc)) = true) :
    detect_sequence_type desc = some MRISequenceType.T1C := by
  simp [detect_sequence_type, SEQUENCE_KEYWORDS, detectAux, h1, h2]

/-- Witness for C5: "T1_GAD axial" matches both keyword sets and
classifies as T1C. -/
theorem t1_contrast_precedence_witness :
    (seqKeywords MRISequenceType.T1).any
        (fun kw => strIn kw (strLower "T1_GAD axial")) = true ∧
    detect_sequence_type "T1_GAD axial" = some MRISequenceType.T1C :=
  ⟨by decide, t1_contrast_precedence "T1_GAD axial" (by decide) (by decide)⟩

/-- C10 counterexample: "t1 t2_flair" contains the T2 keyword "t2" (and
even the FLAIR keyword "t2_flair"), yet classifies as T1 — not T2 — so
"returns T2 for every description containing a T2 keyword" fails. -/
theorem t2_keyword_counterexample :
    strIn "t2" (strLower "t1 t2_flair") = true ∧
    strIn "t2_flair" (strLower "t1 t2_flair") = true ∧
    detect_sequence_type "t1 t2_flair" = some MRISequenceType.T1 ∧
    some MRISequenceType.T1 ≠ some MRISequenceType.T2 := by
  decide

/-- C10 amended: a description containing a T2 keyword never classifies
as FLAIR (the T2 set is checked before the FLAIR set); it classifies as
T2 when no T1 and no T1-contrast keyword also matches. -/
theorem t2_checked_before_flair (desc : String)
    (h : (seqKeywords MRISequenceType.T2).any
        (fun kw => strIn kw (strLower desc)) = true) :
    detect_sequence_type desc ≠ some MRISequenceType.FLAIR ∧
    ((seqKeywords MRISequenceType.T1).any
        (fun kw => strIn kw (strLower desc)) = false →
     (seqKeywords MRISequenceType.T1C).any
        (fun kw => strIn kw (strLower desc)) = false →
     detect_sequence_type desc = some MRISequenceType.T2) := by
  constructor
  · cases hb1 : (seqKeywords MRISequenceType.T1).any
        (fun kw => strIn kw (strLower desc)) <;>
      cases hb2 : (seqKeywords MRISequenceType.T1C).any
          (fun kw => strIn kw (strLower desc)) <;>
      simp [detect_sequence_type, SEQUENCE_KEYWORDS, detectAux, hb1, hb2, h]
  · intro h1 h2
    simp [detect_sequence_type, SEQUENCE_KEYWORDS, detectAux, h1, h2, h]

/-- Witness for C10 amended: "t2_flair sag" contains a T2 keyword,
matches no T1/T1C keyword, and classifies as T2 (hence not FLAIR). -/
theorem t2_checked_before_flair_witness :
    (seqKeywords MRISequenceType.T2).any
        (fun kw => strIn kw (strLower "t2_flair sag")) = true ∧
    detect_sequence_type "t2_flair sag" = some MRISequenceType.T2 ∧
    detect_sequence_type "t2_flair sag" ≠ some MRISequenceType.FLAIR :=
  ⟨by decide,
   (t2_checked_before_flair "t2_flair sag" (by decide)).2 (by decide) (by decide),
   (t2_checked_before_flair "t2_flair sag" (by decide)).1⟩

/-- C7: an empty input collection parses to the `"EMPTY"` sentinel study
(no exception), and any study with zero series fails validation with the
error "Study contains no series". -/
theorem empty_input_sentinel (study : DicomStudy) (hs : study.series = []) :
    parse_study [] =
      { study_uid := "EMPTY", patient_id := "ANONYMOUS", study_date := none,
        study_description := none, series := [] } ∧
    (validate_study study).is_valid = false ∧
    "Study contains no series" ∈ (validate_study study).errors := by
  refine ⟨rfl, ?_, ?_⟩
  · simp [validate_study, validate_modality, hs]
  · simp [validate_study, validate_modality, hs]

/-- Witness for C7: the sentinel study itself has no series and fails
validation with the "no series" error. -/
theorem empty_input_sentinel_witness :
    (validate_study (parse_study [])).is_valid = false ∧
    "Study contains no series" ∈ (validate_study (parse_study [])).errors :=
  ⟨(empty_input_sentinel (parse_study []) rfl).2.1,
   (empty_input_sentinel (parse_study []) rfl).2.2⟩

/-- Modelled from the spec: the ClinicalRiskRuleEngine rule table of
§4.5 — five strict-threshold rules, segmentation rules before genotype
rules, one named risk factor per triggered rule, all flags false/empty
when neither input is supplied. -/
def specClinicalFlags (segmentation : Option TumorSegmentation)
    (genotype : Option GenotypeIPrediction) : ClinicalFlags :=
  let wt := match segmentation with
    | none => false
    | some s => decide (s.whole_tumor_volume_ml > 50)
  let en := match segmentation with
    | none => false
    | some s => decide (s.enhancing_tumor_volume_ml > 20)
  let ne := match segmentation with
    | none => false
    | some s => decide (s.necrotic_core_volume_ml > 10)
  let idh := match genotype with
    | none => false
    | some g => decide (g.idh_wildtype_probability > 0.7)
  let eg := match genotype with
    | none => false
    | some g => decide (g.egfr_amplification_probability > 0.6)
  { high_risk := wt || en || idh || eg
    requires_urgent_review := ne
    risk_factors :=
      (if wt then ["Large tumor volume (>50 mL)"] else []) ++
      (if en then ["Significant tumor enhancement"] else []) ++
      (if ne then ["Large necrotic core"] else []) ++
      (if idh then ["IDH-wildtype (worse prognosis)"] else []) ++
      (if eg then ["EGFR amplification likely"] else [])
    urgency_reason :=
      if ne then some "Large necrotic core may indicate high-grade glioma" else none }

/-- C8: the clinical flagging pipeline equals the spec rule table
(strict `>` thresholds, one risk factor per rule, segmentation rules
before genotype rules); values exactly at every threshold raise nothing;
with neither input all flags are false and the list empty. -/
theorem clinical_flagging_rules :
    (∀ (segmentation : Option TumorSegmentation)
        (genotype : Option GenotypeIPrediction),
      clinicalFlaggingRun segmentation genotype =
        specClinicalFlags segmentation genotype) ∧
    clinicalFlaggingRun
        (some { whole_tumor_volume_ml := 50, enhancing_tumor_volume_ml := 20,
                necrotic_core_volume_ml := 10, confidence_score := 1 })
        (some { idh_mutation_probability := 0, idh_wildtype_probability := 0.7,
                mgmt_methylation_probability := 0,
                egfr_amplification_probability := 0.6,
                prediction_confidence := 1 }) =
      { high_risk := false, requires_urgent_review := false, risk_factors := [],
        urgency_reason := none } ∧
    clinicalFlaggingRun none none =
      { high_risk := false, requires_urgent_review := false, risk_factors := [],
        urgency_reason := none } := by
  have hmain : ∀ (segmentation : Option TumorSegmentation)
      (genotype : Option GenotypeIPrediction),
      clinicalFlaggingRun segmentation genotype =
        specClinicalFlags segmentation genotype := by
    intro segmentation genotype
    cases segmentation <;> cases genotype <;>
      simp only [clinicalFlaggingRun, specClinicalFlags] <;>
      repeat' split <;> simp_all
  refine ⟨hmain, ?_, rfl⟩
  rw [hmain]
  simp only [specClinicalFlags]
  norm_num

/-- Helper: the error list accumulated by `reqSeqLoop` is the list of
missing-sequence errors of the absent types, in order. -/
theorem reqSeqLoop_errors (study : DicomStudy) (ts : List MRISequenceType) :
    (reqSeqLoop study ts).1 =
      (ts.filter (fun t => !(study.get_series_by_type t).isSome)).map
        missingSeqError := by
  induction ts with
  | nil => rfl
  | cons t ts ih =>
    by_cases h : (study.get_series_by_type t).isSome = true <;>
      simp [reqSeqLoop, ih, h, List.filter]

/-- Helper: the status map accumulated by `reqSeqLoop` has one entry per
type, in order, holding its presence bit. -/
theorem reqSeqLoop_status (study : DicomStudy) (ts : List MRISequenceType) :
    (reqSeqLoop study ts).2 =
      ts.map (fun t => (t.value, (study.get_series_by_type t).isSome)) := by
  induction ts with
  | nil => rfl
  | cons t ts ih => simp [reqSeqLoop, ih]

/-- Helper: distinct sequence types produce distinct missing-sequence
error texts. -/
theorem missingSeqError_injective : Function.Injective missingSeqError := by
  intro a b h
  revert h
  cases a <;> cases b <;> simp [missingSeqError, MRISequenceType.value]

/-- C2: if a required sequence type has no series classified to it,
`validate_study` is invalid, its errors name that type (exactly once in
the required-sequence check), the status map records `false` for it, and
the status map always has exactly one entry per required type. -/
theorem missing_required_sequence (study : DicomStudy) (r : MRISequenceType)
    (hr : r ∈ REQUIRED_SEQUENCES)
    (hmiss : study.get_series_by_type r = none) :
    (validate_study study).is_valid = false ∧
    missingSeqError r ∈ (validate_study study).errors ∧
    (validate_required_sequences study).2.1.count (missingSeqError r) = 1 ∧
    (validate_study study).required_sequences.lookup r.value = some false ∧
    (validate_study study).required_sequences.map Prod.fst =
      REQUIRED_SEQUENCES.map MRISequenceType.value := by
  have hmiss' : (study.get_series_by_type r).isSome = false := by
    rw [hmiss]; rfl
  have herrs := reqSeqLoop_errors study REQUIRED_SEQUENCES
  have hstat := reqSeqLoop_status study REQUIRED_SEQUENCES
  have hrf : r ∈ REQUIRED_SEQUENCES.filter
      (fun t => !(study.get_series_by_type t).isSome) := by
    simp only [List.mem_filter, hmiss']
    exact ⟨hr, rfl⟩
  have hmem : missingSeqError r ∈ (reqSeqLoop study REQUIRED_SEQUENCES).1 := by
    rw [herrs]
    exact List.mem_map_of_mem _ hrf
  have hcount : (reqSeqLoop study REQUIRED_SEQUENCES).1.count (missingSeqError r) = 1 := by
    rw [herrs, List.count_eq_one_of_mem]
    · exact (List.Nodup.filter _ (by decide)).map missingSeqError_injective
    · exact List.mem_map_of_mem _ hrf
  refine ⟨?_, ?_, hcount, ?_, ?_⟩
  · have : (reqSeqLoop study REQUIRED_SEQUENCES).1.isEmpty = false := by
      cases hl : (reqSeqLoop study REQUIRED_SEQUENCES).1
      · rw [hl] at hmem; cases hmem
      · rfl
    simp [validate_study, validate_required_sequences, this]
  · simp only [validate_study, validate_required_sequences, List.mem_append]
    exact Or.inl (Or.inr hmem)
  · show (reqSeqLoop study REQUIRED_SEQUENCES).2.lookup r.value = some false
    rw [hstat]
    have hr' : r = MRISequenceType.T1 ∨ r = MRISequenceType.T2 ∨
        r = MRISequenceType.FLAIR := by
      simpa [REQUIRED_SEQUENCES] using hr
    rcases hr' with h | h | h <;> subst h <;>
      simp [REQUIRED_SEQUENCES, List.lookup, MRISequenceType.value, hmiss']
  · show (reqSeqLoop study REQUIRED_SEQUENCES).2.map Prod.fst = _
    rw [hstat, List.map_map]
    rfl

/-- A study with T1 and T2 series but no FLAIR, used as witness input. -/
def studyMissingFlair : DicomStudy :=
  { study_uid := "S1"
    series :=
      [{ series_uid := "1.1", series_description := "t1 ax", modality := "MR",
         sequence_type := some MRISequenceType.T1, file_paths := [], num_slices := 20 },
       { series_uid := "1.2", series_description := "t2 ax", modality := "MR",
         sequence_type := some MRISequenceType.T2, file_paths := [], num_slices := 20 }] }

/-- Witness for C2: a study without any FLAIR series is invalid and
reports the missing FLAIR sequence with status `false`. -/
theorem missing_required_sequence_witness :
    (validate_study studyMissingFlair).is_valid = false ∧
    missingSeqError MRISequenceType.FLAIR ∈ (validate_study studyMissingFlair).errors ∧
    (validate_study studyMissingFlair).required_sequences.lookup
      MRISequenceType.FLAIR.value = some false :=
  ⟨(missing_required_sequence studyMissingFlair MRISequenceType.FLAIR
      (by simp [REQUIRED_SEQUENCES]) rfl).1,
   (missing_required_sequence studyMissingFlair MRISequenceType.FLAIR
      (by simp [REQUIRED_SEQUENCES]) rfl).2.1,
   (missing_required_sequence studyMissingFlair MRISequenceType.FLAIR
      (by simp [REQUIRED_SEQUENCES]) rfl).2.2.2.1⟩

/-- C1: for a stored study, `run_inference` fails with the
ValidationBlocked outcome — carrying the stored validation errors and
required-sequence status — iff the stored `is_valid` is false and
`bypass_validation` is false; when blocked the store (hence any stored
AnalysisResult) is unchanged; with `bypass_validation = true` it always
completes, regardless of `is_valid`. -/
theorem inference_validation_gate (p : Pipelines) (db : StudiesDb)
    (request : InferenceRequest) (study_data : StudyRecord)
    (hfound : dbLookup db request.study_id = some study_data) :
    ((run_inference p db request).1 =
        InferenceOutcome.validationBlocked study_data.validation.errors
          study_data.validation.required_sequences ↔
      study_data.validation.is_valid = false ∧ request.bypass_validation = false) ∧
    (study_data.validation.is_valid = false ∧ request.bypass_validation = false →
      (run_inference p db request).2 = db) ∧
    (request.bypass_validation = true →
      ∃ r : AnalysisResult, (run_inference p db request).1 =
        InferenceOutcome.completed r) := by
  cases hv : study_data.validation.is_valid <;>
    cases hb : request.bypass_validation <;>
      simp [run_inference, hfound, hv, hb]

/-- Inputs for the C1 witness: constant model stubs and a one-study
store holding the failed-validation sentinel study. -/
def demoPipelines : Pipelines :=
  { segmentation := fun _ => ⟨0, 0, 0, 0⟩
    genotype := fun _ => ⟨0, 0, 0, 0, 0⟩ }

/-- The C1 witness store entry: the sentinel study and its (failing)
validation result. -/
def demoRecord : StudyRecord :=
  { study := { study_uid := "EMPTY", series := [] }
    validation := validate_study { study_uid := "EMPTY", series := [] } }

/-- The C1 witness store. -/
def demoDb : StudiesDb := [("id1", demoRecord)]

/-- Witness for C1: a one-study store whose study failed validation —
inference is blocked with the stored detail and the store is unchanged;
the same request with the bypass flag completes. -/
theorem inference_validation_gate_witness :
    (run_inference demoPipelines demoDb { study_id := "id1" }).1 =
      InferenceOutcome.validationBlocked demoRecord.validation.errors
        demoRecord.validation.required_sequences ∧
    (run_inference demoPipelines demoDb { study_id := "id1" }).2 = demoDb ∧
    (∃ r : AnalysisResult,
      (run_inference demoPipelines demoDb
          { study_id := "id1", bypass_validation := true }).1 =
        InferenceOutcome.completed r) :=
  ⟨(inference_validation_gate demoPipelines demoDb { study_id := "id1" }
      demoRecord rfl).1.mpr ⟨rfl, rfl⟩,
   (inference_validation_gate demoPipelines demoDb { study_id := "id1" }
      demoRecord rfl).2.1 ⟨rfl, rfl⟩,
   (inference_validation_gate demoPipelines demoDb
      { study_id := "id1", bypass_validation := true } demoRecord rfl).2.2 rfl⟩

/-- A file whose header carries instance index 1. -/
def fileWithIndex : FileMetadata :=
  extract_series_metadata { InstanceNumber := some 1 } "f1"

/-- A file whose header lacks an instance index (extracted as 0). -/
def fileNoIndex : FileMetadata :=
  extract_series_metadata { InstanceNumber := none } "f2"

/-- C6 counterexample: in a two-file series where only the first file has
an instance index (1), the file lacking an index is placed first — not
last — because the missing index is extracted as 0. -/
theorem missing_index_ordered_last_counterexample :
    (build_dicom_series [fileWithIndex, fileNoIndex]).file_paths = ["f2", "f1"] ∧
    (build_dicom_series [fileWithIndex, fileNoIndex]).file_paths ≠ ["f1", "f2"] := by
  have h : (build_dicom_series [fileWithIndex, fileNoIndex]).file_paths = ["f2", "f1"] := by
    simp [build_dicom_series, sortFilesByInstance, List.mergeSort, List.splitInTwo,
      List.merge, fileLe, fileWithIndex, fileNoIndex, extract_series_metadata]
  exact ⟨h, by rw [h]; simp⟩

/-- Helper: the file comparison is transitive. -/
theorem fileLe_trans (a b c : FileMetadata) :
    fileLe a b → fileLe b c → fileLe a c := by
  simp only [fileLe, decide_eq_true_eq]
  omega

/-- Helper: the file comparison is total. -/
theorem fileLe_total (a b : FileMetadata) : fileLe a b || fileLe b a := by
  simp only [fileLe, Bool.or_eq_true, decide_eq_true_eq]
  omega

/-- C6 amended: the built series' files are ordered ascending by the
extracted instance index and the sort is stable (any list of files that
is already mutually ordered keeps its relative order), but a file
lacking an instance index is extracted with index 0 and therefore sorts
before — not after — every file with a positive index. -/
theorem series_file_order (l : List FileMetadata) :
    (build_dicom_series l).file_paths =
      (sortFilesByInstance l).map (fun m => m.filepath) ∧
    (sortFilesByInstance l).Pairwise
      (fun a b => a.instance_number ≤ b.instance_number) ∧
    (sortFilesByInstance l).Perm l ∧
    (∀ c : List FileMetadata, c.Pairwise (fun a b => fileLe a b = true) →
      c.Sublist l → c.Sublist (sortFilesByInstance l)) ∧
    (∀ dcm : DicomDataset, dcm.InstanceNumber = none →
      ∀ fp : String, (extract_series_metadata dcm fp).instance_number = 0) := by
  refine ⟨rfl, ?_, ?_, ?_, ?_⟩
  · have hs := List.sorted_mergeSort fileLe_trans fileLe_total l
    exact hs.imp (by simp only [fileLe, decide_eq_true_eq]; exact fun h => h)
  · exact List.mergeSort_perm l fileLe
  · intro c hc hsub
    exact List.sublist_mergeSort fileLe_trans fileLe_total hc hsub
  · intro dcm hnone fp
    simp [extract_series_metadata, hnone]

/-- Witness for C6 amended: concrete instantiation on the two-file
series — sortedness, permutation, stability of an ordered sublist, and
the index-0 extraction. -/
theorem series_file_order_witness :
    (sortFilesByInstance [fileWithIndex, fileNoIndex]).Pairwise
      (fun a b => a.instance_number ≤ b.instance_number) ∧
    (sortFilesByInstance [fileWithIndex, fileNoIndex]).Perm
      [fileWithIndex, fileNoIndex] ∧
    [fileWithIndex].Sublist (sortFilesByInstance [fileWithIndex, fileNoIndex]) ∧
    fileNoIndex.instance_number = 0 :=
  ⟨(series_file_order [fileWithIndex, fileNoIndex]).2.1,
   (series_file_order [fileWithIndex, fileNoIndex]).2.2.1,
   (series_file_order [fileWithIndex, fileNoIndex]).2.2.2.1 [fileWithIndex]
     (List.pairwise_singleton _ _) (by simp),
   (series_file_order []).2.2.2.2 { InstanceNumber := none } rfl "f2"⟩

/-- Helper: `insertGroup` preserves non-emptiness of every group. -/
theorem insertGroup_nonempty :
    ∀ (groups : List (String × List FileMetadata)) (uid : String) (m : FileMetadata),
      (∀ g ∈ groups, g.2 ≠ []) → ∀ g ∈ insertGroup groups uid m, g.2 ≠ []
  | [], _uid, m, _h => by
    intro g hg
    simp only [insertGroup, List.mem_singleton] at hg
    subst hg
    simp
  | (u, ms) :: rest, uid, m, h => by
    intro g hg
    simp only [insertGroup] at hg
    split at hg
    · rcases List.mem_cons.mp hg with hg | hg
      · subst hg; simp
      · exact h g (List.mem_cons_of_mem _ hg)
    · rcases List.mem_cons.mp hg with hg | hg
      · subst hg; exact h (u, ms) (List.mem_cons_self _ _)
      · exact insertGroup_nonempty rest uid m
          (fun g' hg' => h g' (List.mem_cons_of_mem _ hg')) g hg

/-- Helper: `groupStep` preserves non-emptiness of every group. -/
theorem groupStep_nonempty (groups : List (String × List FileMetadata))
    (f : DicomFile) (h : ∀ g ∈ groups, g.2 ≠ []) :
    ∀ g ∈ groupStep groups f, g.2 ≠ [] := by
  unfold groupStep
  cases f.dataset with
  | none => exact h
  | some dcm => exact insertGroup_nonempty groups _ _ h

/-- Helper: every group produced by `group_series` is non-empty. -/
theorem group_series_nonempty (file_paths : List DicomFile) :
    ∀ g ∈ group_series file_paths, g.2 ≠ [] := by
  have main : ∀ (fs : List DicomFile) (init : List (String × List FileMetadata)),
      (∀ g ∈ init, g.2 ≠ []) → ∀ g ∈ fs.foldl groupStep init, g.2 ≠ [] := by
    intro fs
    induction fs with
    | nil => intro init h; simpa using h
    | cons f fs ih =>
      intro init h
      simp only [List.foldl_cons]
      exact ih (groupStep init f) (groupStep_nonempty init f h)
  exact main file_paths [] (by intro g hg; cases hg)

/-- Helper: a built series records `num_slices = len(file_paths)`, and a
non-empty metadata group yields at least one slice. -/
theorem build_dicom_series_num_slices (l : List FileMetadata) :
    (build_dicom_series l).num_slices = (build_dicom_series l).file_paths.length ∧
    (l ≠ [] → 1 ≤ (build_dicom_series l).num_slices) := by
  constructor
  · simp [build_dicom_series]
  · intro hne
    have hlen : (sortFilesByInstance l).length = l.length := by
      simp [sortFilesByInstance]
    have hpos : 0 < l.length := List.length_pos.mpr hne
    simp only [build_dicom_series, hlen]
    omega

/-- C9: every series built by `parse_study` satisfies
`num_slices = len(file_paths) ≥ 1`, so the slice-count check's
hard-error branch is unreachable on parsed studies and
`validate_slice_counts` passes with no errors. -/
theorem parse_study_slice_invariant (file_paths : List DicomFile) :
    (∀ s ∈ (parse_study file_paths).series,
       s.num_slices = s.file_paths.length ∧ 1 ≤ s.num_slices) ∧
    (validate_slice_counts (parse_study file_paths)).2.1 = [] ∧
    (validate_slice_counts (parse_study file_paths)).1 = true := by
  have hmem : ∀ s ∈ (parse_study file_paths).series,
      s.num_slices = s.file_paths.length ∧ 1 ≤ s.num_slices := by
    intro s hs
    by_cases hemp : file_paths.isEmpty
    · simp [parse_study, hemp] at hs
    · simp only [parse_study, hemp, if_neg, Bool.false_eq_true,
        not_false_eq_true, List.mem_map] at hs
      obtain ⟨g, hg, rfl⟩ := hs
      exact ⟨(build_dicom_series_num_slices g.2).1,
        (build_dicom_series_num_slices g.2).2
          (group_series_nonempty file_paths g hg)⟩
  have herr : ∀ s ∈ (parse_study file_paths).series, (sliceCheckSeries s).1 = [] := by
    intro s hs
    have h1 := (hmem s hs).2
    cases hseq : s.sequence_type with
    | none => simp [sliceCheckSeries, hseq]
    | some t =>
      have hnlt : ¬ s.num_slices < MIN_SLICES_PER_SEQUENCE := by
        simp only [MIN_SLICES_PER_SEQUENCE]
        omega
      by_cases hreq : REQUIRED_SEQUENCES.contains t
      · by_cases h5 : s.num_slices < 5 <;>
          simp [sliceCheckSeries, hseq, hreq, hnlt, h5]
      · simp [sliceCheckSeries, hseq, hreq]
  have hflat : (validate_slice_counts (parse_study file_paths)).2.1 = [] := by
    show ((parse_study file_paths).series.map (fun s => (sliceCheckSeries s).1)).flatten = []
    rw [List.flatten_eq_nil_iff]
    intro xs hxs
    obtain ⟨s, hs, rfl⟩ := List.mem_map.mp hxs
    exact herr s hs
  refine ⟨hmem, hflat, ?_⟩
  show (validate_slice_counts (parse_study file_paths)).2.1.isEmpty = true
  rw [hflat]
  rfl

/-- Witness for C9: a concrete one-file upload — the parsed study's
single series has one slice, equal to its file count, and the
slice-count check passes with no errors. -/
theorem parse_study_slice_invariant_witness :
    (validate_slice_counts (parse_study
      [{ filepath := "a.dcm",
         dataset := some { SeriesInstanceUID := some "1.2.3",
                           Modality := some "MR",
                           SeriesDescription := some "t1 ax" } }])).2.1 = [] ∧
    (validate_slice_counts (parse_study
      [{ filepath := "a.dcm",
         dataset := some { SeriesInstanceUID := some "1.2.3",
                           Modality := some "MR",
                           SeriesDescription := some "t1 ax" } }])).1 = true :=
  ⟨(parse_study_slice_invariant _).2.1, (parse_study_slice_invariant _).2.2⟩

end NeuroVis
